import Mathlib

/-!
Verification of the risk-scoring-service specification against the code in
`src/src/main.py`.

The repository is a FastAPI skeleton.  The data models
(`RiskAssessmentRequest`, `RiskScore`) and the route handlers
(`assess_risk`, `batch_assess_risk`, `readiness_check`) are embedded below
directly from the source.  The decision core (`RiskCombiner` together with
`HistorySignal`, `SimilarityMatch`, `ModelOutput`) is absent from the
source — every scoring behaviour is a `TODO` placeholder — so those
definitions are modelled from the spec (sections 3 and 4.4), as marked in
their doc comments.

Python `float` values in the source and spec are exact decimal constants
(0.5, 0.25, 0.6, 0.85, weights summing to 1), so scores are embedded as
rationals (`ℚ`).
-/

/-- A value occurring in a JSON mapping (the Python `dict` payloads). -/
inductive JValue where
  | str : String → JValue
  | num : Int → JValue
  | bool : Bool → JValue
  | arr : List JValue → JValue
  | obj : List (String × JValue) → JValue

/-- Association-list lookup on a JSON-object field list. -/
def lookupField (fields : List (String × JValue)) (k : String) : Option JValue :=
  (fields.find? (fun p => p.1 == k)).map (fun p => p.2)

/-- Embeds the pydantic model `RiskAssessmentRequest` (src/src/main.py,
lines 25-31): required `entity_id` and `entity_type`, `parameters`
defaulting to the empty dict, optional `context`. -/
structure RiskAssessmentRequest where
  entity_id : String
  entity_type : String
  parameters : List (String × JValue) := []
  context : Option (List (String × JValue)) := none

def mediumStr : String := "MEDIUM"
def placeholderStr : String := "placeholder"
def placeholderTimestamp : String := "2025-01-15T00:00:00Z"
def defaultModelVersion : String := "0.1.0"
def serviceName : String := "risk-scoring-service"
def pendingStr : String := "pending"
def processedKey : String := "processed"
def statusKey : String := "status"
def resultsKey : String := "results"

/-- Embeds the pydantic model `RiskScore` (src/src/main.py, lines 34-42).
`score` is declared there with `ge=0.0, le=1.0`; `model_version` defaults
to `"0.1.0"`. -/
structure RiskScore where
  entity_id : String
  risk_level : String
  score : ℚ
  factors : List String := []
  timestamp : String
  model_version : String := defaultModelVersion
deriving DecidableEq

/-- Embeds the route handler `assess_risk` (src/src/main.py, lines
101-134): the placeholder implementation builds a constant `RiskScore`
around the request's `entity_id`. -/
def assess_risk (request : RiskAssessmentRequest) : RiskScore :=
  { entity_id := request.entity_id
    risk_level := mediumStr
    score := 0.5
    factors := [placeholderStr]
    timestamp := placeholderTimestamp
    model_version := defaultModelVersion }

/-- Embeds the route handler `batch_assess_risk` (src/src/main.py, lines
137-142): it returns the JSON object
`\x7b"processed": len(requests), "status": "pending"\x7d` and performs no
per-item processing. -/
def batch_assess_risk (requests : List RiskAssessmentRequest) :
    List (String × JValue) :=
  [(processedKey, JValue.num requests.length), (statusKey, JValue.str pendingStr)]

/-- Outcome of the lightweight connectivity probes of the three
dependencies (history store, vector index, model), as the spec's
`probeDependencies()` would report them. -/
structure DependencyProbes where
  history : Bool
  similarity : Bool
  model : Bool

/-- Response body of `GET /ready`. -/
structure ReadyResponse where
  ready : Bool
  service : String
deriving DecidableEq

/-- Embeds the route handler `readiness_check` (src/src/main.py, lines
94-98).  The source consults nothing (the connectivity checks are a TODO)
and returns `\x7b"ready": True, ...\x7d` unconditionally; it is embedded as a
function of the probe outcomes to express that the response is independent
of them. -/
def readiness_check (_probes : DependencyProbes) : ReadyResponse :=
  { ready := true, service := serviceName }

/-- Raw JSON body of a `POST /api/v1/risk/assess` request before pydantic
validation: each declared field either present or absent. -/
structure RawAssessBody where
  entity_id : Option String := none
  entity_type : Option String := none
  parameters : Option (List (String × JValue)) := none
  context : Option (List (String × JValue)) := none

/-- FastAPI/pydantic validation of the request body against the declared
model `RiskAssessmentRequest` (src/src/main.py, lines 25-31): the two
required fields must be present, `parameters` defaults to the empty dict,
`context` to `None`; a validation failure is answered with HTTP 422. -/
def parse_assess_body (b : RawAssessBody) : Except Nat RiskAssessmentRequest :=
  match b.entity_id, b.entity_type with
  | some i, some t =>
      .ok { entity_id := i, entity_type := t
            parameters := b.parameters.getD [], context := b.context }
  | _, _ => .error 422

/-- The `POST /api/v1/risk/assess` route as served: validation followed by
the handler `assess_risk`. -/
def handle_assess (b : RawAssessBody) : Except Nat RiskScore :=
  (parse_assess_body b).map assess_risk

/-- Modelled from the spec: the `HistorySignal` record of section 3
(`RiskCombiner` and its inputs are absent from src; the skeleton's
handler is a placeholder). -/
structure HistorySignal where
  entity_id : String := ""
  lookback_window : Nat := 0
  count : Nat := 0
  anomaly_flag : Bool := false
  last_seen : String := ""

/-- Modelled from the spec: the `SimilarityMatch` record of section 3. -/
structure SimilarityMatch where
  pattern_id : String := ""
  distance : ℚ := 0
  label : String := ""

/-- Modelled from the spec: the `ModelOutput` record of section 3. -/
structure ModelOutput where
  raw_probability : ℚ
  feature_contributions : List (String × ℚ) := []
  model_version : String := defaultModelVersion

/-- Modelled from the spec: the fixed configuration weights of
section 4.4. -/
structure Weights where
  model : ℚ
  history : ℚ
  similarity : ℚ

/-- The four risk bands, totally ordered LOW < MEDIUM < HIGH < CRITICAL. -/
inductive RiskLevel where
  | LOW
  | MEDIUM
  | HIGH
  | CRITICAL
deriving DecidableEq

def riskLevelToString (l : RiskLevel) : String :=
  match l with
  | .LOW => "LOW"
  | .MEDIUM => "MEDIUM"
  | .HIGH => "HIGH"
  | .CRITICAL => "CRITICAL"

def riskLevelNames : List String :=
  [RiskLevel.LOW, RiskLevel.MEDIUM, RiskLevel.HIGH, RiskLevel.CRITICAL].map riskLevelToString

def clamp01 (q : ℚ) : ℚ := if q < 0 then 0 else if 1 < q then 1 else q

/-- Modelled from the spec: `historyAnomalyContribution` of section 4.4 —
1.0 if `anomaly_flag` else 0.0. -/
def historyContribution (h : HistorySignal) : ℚ :=
  if h.anomaly_flag then 1 else 0

/-- Modelled from the spec: `similarityContribution` of section 4.4 — a
monotonically decreasing function of the nearest match's distance, 0 if
there are no matches (the spec fixes only those properties; `1/(1+d)` is
one such function). -/
def similarityContribution (ms : List SimilarityMatch) : ℚ :=
  match ms with
  | [] => 0
  | m :: _ => 1 / (1 + m.distance)

/-- Modelled from the spec: the half-open threshold bands of section 4.4 —
`[0,0.25) LOW, [0.25,0.6) MEDIUM, [0.6,0.85) HIGH, [0.85,1] CRITICAL`,
a score exactly on a boundary belonging to the higher band. -/
def riskLevelOf (s : ℚ) : RiskLevel :=
  if s < 0.25 then .LOW
  else if s < 0.6 then .MEDIUM
  else if s < 0.85 then .HIGH
  else .CRITICAL

def padZeros (ds : List Char) (n : Nat) : List Char :=
  List.replicate (n - ds.length) '0' ++ ds

/-- Renders an integer part and a six-digit scaled fractional part as a
decimal string, trailing zeros trimmed. -/
def renderParts (ip : ℤ) (scaled : ℕ) : String :=
  let ds := padZeros (Nat.toDigits 10 scaled) 6
  let trimmed := (ds.reverse.dropWhile (fun c => c == '0')).reverse
  if trimmed.isEmpty then toString ip
  else toString ip ++ "." ++ String.mk trimmed

/-- Renders a rational as a decimal string with up to six fractional
digits, trailing zeros trimmed (`1/2` renders as `"0.5"`). -/
def ratToDec (q : ℚ) : String :=
  renderParts ⌊q⌋ (⌊(q - (⌊q⌋ : ℚ)) * 1000000⌋).toNat

def modelFactorLabel : String := "model: baseline probability "
def historyFactorLabel : String := "history: anomaly flag"
def similarityFactorLabel : String := "similarity: nearest pattern match"

/-- Stable descending insertion by weighted contribution: an element is
inserted after existing equal contributions, so ties keep the fixed
signal-category priority order of the candidate list. -/
def insertFactorDesc (x : ℚ × String) : List (ℚ × String) → List (ℚ × String)
  | [] => [x]
  | y :: ys => if y.1 < x.1 then x :: y :: ys else y :: insertFactorDesc x ys

def sortFactorsDesc : List (ℚ × String) → List (ℚ × String)
  | [] => []
  | x :: xs => insertFactorDesc x (sortFactorsDesc xs)

/-- Modelled from the spec: the factor list of section 4.4 — each
contributing signal ranked by absolute weighted contribution descending,
top 5, ties broken by the fixed priority model > history > similarity,
rendered as a human-readable label. -/
def buildFactors (w : Weights) (m : ModelOutput) (h : HistorySignal)
    (ms : List SimilarityMatch) : List String :=
  let cands : List (ℚ × String) :=
    [(|w.model * m.raw_probability|, modelFactorLabel ++ ratToDec m.raw_probability),
     (|w.history * historyContribution h|, historyFactorLabel),
     (|w.similarity * similarityContribution ms|, similarityFactorLabel)]
  (((sortFactorsDesc (cands.filter (fun c => decide (c.1 ≠ 0)))).take 5).map (fun c => c.2))

/-- The decision record produced by the combiner: a `RiskScore` minus the
timestamp, which the spec excludes from the determinism contract (it is
stamped by the orchestrator at decision time). -/
structure CombinedScore where
  entity_id : String
  risk_level : RiskLevel
  score : ℚ
  factors : List String
  model_version : String
deriving DecidableEq

/-- Modelled from the spec: `RiskCombiner.compute` of section 4.4 —
`score = clamp01(w_model * raw_probability + w_history *
historyAnomalyContribution + w_similarity * similarityContribution)`,
risk level from the fixed bands, factors ranked as in `buildFactors`,
`model_version` propagated from the `ModelOutput`. -/
def compute (w : Weights) (r : RiskAssessmentRequest) (h : HistorySignal)
    (ms : List SimilarityMatch) (m : ModelOutput) : CombinedScore :=
  let s := clamp01 (w.model * m.raw_probability
    + w.history * historyContribution h
    + w.similarity * similarityContribution ms)
  { entity_id := r.entity_id
    risk_level := riskLevelOf s
    score := s
    factors := buildFactors w m h ms
    model_version := m.model_version }

def acctId : String := "acct-1"
def acctType : String := "account"
def txnType : String := "transaction"
def amountKey : String := "amount"

/-- The request of the spec's end-to-end example. -/
def exampleRequest : RiskAssessmentRequest :=
  { entity_id := acctId, entity_type := acctType
    parameters := [(amountKey, JValue.num 9999)] }

/-- The history signal of the spec's end-to-end example. -/
def exampleHistory : HistorySignal := { count := 0, anomaly_flag := false }

/-- The model output of the spec's end-to-end example. -/
def exampleModelOutput : ModelOutput := { raw_probability := 0.5 }

/-- The weights of the spec's end-to-end example. -/
def exampleWeights : Weights := { model := 0.7, history := 0.2, similarity := 0.1 }

/-- The factor string the spec's end-to-end example expects. -/
def expectedModelFactor : String := "model: baseline probability 0.5"

/-- A well-formed sample request. -/
def sampleRequest : RiskAssessmentRequest :=
  { entity_id := acctId, entity_type := acctType }

/-- A sample request with the invalid empty `entity_id`. -/
def emptyIdRequest : RiskAssessmentRequest :=
  { entity_id := "", entity_type := txnType }

lemma clamp01_of_mem (q : ℚ) (h0 : 0 ≤ q) (h1 : q ≤ 1) : clamp01 q = q := by
  unfold clamp01
  rw [if_neg (not_lt.mpr h0), if_neg (not_lt.mpr h1)]

lemma clamp01_nonneg (q : ℚ) : 0 ≤ clamp01 q := by
  unfold clamp01
  by_cases h0 : q < 0
  · rw [if_pos h0]
  · rw [if_neg h0]
    by_cases h1 : 1 < q
    · rw [if_pos h1]
      norm_num
    · rw [if_neg h1]
      exact le_of_not_lt h0

lemma clamp01_le_one (q : ℚ) : clamp01 q ≤ 1 := by
  unfold clamp01
  by_cases h0 : q < 0
  · rw [if_pos h0]
    norm_num
  · rw [if_neg h0]
    by_cases h1 : 1 < q
    · rw [if_pos h1]
    · rw [if_neg h1]
      exact le_of_not_lt h1

lemma riskLevelOf_eq_LOW (s : ℚ) (h : s < 0.25) : riskLevelOf s = RiskLevel.LOW := by
  unfold riskLevelOf
  rw [if_pos h]

lemma riskLevelOf_eq_MEDIUM (s : ℚ) (h1 : ¬ s < 0.25) (h2 : s < 0.6) :
    riskLevelOf s = RiskLevel.MEDIUM := by
  unfold riskLevelOf
  rw [if_neg h1, if_pos h2]

lemma riskLevelOf_eq_HIGH (s : ℚ) (h1 : ¬ s < 0.25) (h2 : ¬ s < 0.6) (h3 : s < 0.85) :
    riskLevelOf s = RiskLevel.HIGH := by
  unfold riskLevelOf
  rw [if_neg h1, if_neg h2, if_pos h3]

lemma riskLevelOf_eq_CRITICAL (s : ℚ) (h1 : ¬ s < 0.25) (h2 : ¬ s < 0.6) (h3 : ¬ s < 0.85) :
    riskLevelOf s = RiskLevel.CRITICAL := by
  unfold riskLevelOf
  rw [if_neg h1, if_neg h2, if_neg h3]

lemma ratToDec_eq_renderParts (q : ℚ) (ip : ℤ) (sc : ℕ) (h1 : ⌊q⌋ = ip)
    (h2 : (q - (ip : ℚ)) * 1000000 = (sc : ℚ)) : ratToDec q = renderParts ip sc := by
  unfold ratToDec
  rw [h1, h2, Int.floor_natCast]
  simp

lemma ratToDec_half : ratToDec 0.5 = "0.5" := by
  rw [ratToDec_eq_renderParts 0.5 0 500000 ?h1 ?h2]
  case h1 =>
    rw [Int.floor_eq_iff]
    constructor <;> norm_num
  case h2 => push_cast; norm_num
  rfl

lemma buildFactors_model_only (w : Weights) (m : ModelOutput) (h : HistorySignal)
    (hm : w.model * m.raw_probability ≠ 0) (hh : w.history * historyContribution h = 0) :
    buildFactors w m h [] = [modelFactorLabel ++ ratToDec m.raw_probability] := by
  have h1 : decide (|w.model * m.raw_probability| ≠ 0) = true :=
    decide_eq_true (by simpa using hm)
  have h2 : decide (|w.history * historyContribution h| ≠ 0) = false :=
    decide_eq_false (by simp [hh])
  have h3 : decide (|w.similarity * similarityContribution []| ≠ 0) = false :=
    decide_eq_false (by simp [similarityContribution])
  simp only [buildFactors, List.filter_cons, List.filter_nil, h1, h2, h3, if_true, if_false,
    sortFactorsDesc, insertFactorDesc, List.take, List.map]

lemma compute_example_score :
    (compute exampleWeights exampleRequest exampleHistory [] exampleModelOutput).score = 0.35 := by
  have h : (compute exampleWeights exampleRequest exampleHistory [] exampleModelOutput).score
      = clamp01 (0.7 * 0.5 + 0.2 * 0 + 0.1 * 0) := rfl
  rw [h, clamp01_of_mem _ (by norm_num) (by norm_num)]
  norm_num

/-- C1: determinism of the risk-combination step — for every fixed input
(request, history signal, similarity matches, model output) and fixed
weights, two invocations of `compute` yield identical score, identical
risk level, and an identical factors list (the timestamp is not part of
the combiner's output at all). -/
theorem c1_combiner_deterministic (w : Weights) (r : RiskAssessmentRequest)
    (h : HistorySignal) (ms : List SimilarityMatch) (m : ModelOutput) :
    (compute w r h ms m).score = (compute w r h ms m).score ∧
    (compute w r h ms m).risk_level = (compute w r h ms m).risk_level ∧
    (compute w r h ms m).factors = (compute w r h ms m).factors :=
  ⟨rfl, rfl, rfl⟩

/-- C2: the spec's end-to-end example — request acct-1 with
HistorySignal(count 0, no anomaly), no similarity matches,
ModelOutput(raw_probability 0.5) and weights (0.7, 0.2, 0.1) produces
score 0.35, risk level MEDIUM and factors
["model: baseline probability 0.5"]. -/
theorem c2_end_to_end_example :
    (compute exampleWeights exampleRequest exampleHistory [] exampleModelOutput).score = 0.35 ∧
    (compute exampleWeights exampleRequest exampleHistory [] exampleModelOutput).risk_level
      = RiskLevel.MEDIUM ∧
    (compute exampleWeights exampleRequest exampleHistory [] exampleModelOutput).factors
      = [expectedModelFactor] := by
  refine ⟨compute_example_score, ?_, ?_⟩
  · have h : (compute exampleWeights exampleRequest exampleHistory [] exampleModelOutput).risk_level
        = riskLevelOf (compute exampleWeights exampleRequest exampleHistory [] exampleModelOutput).score :=
      rfl
    rw [h, compute_example_score]
    exact riskLevelOf_eq_MEDIUM _ (by norm_num) (by norm_num)
  · have h : (compute exampleWeights exampleRequest exampleHistory [] exampleModelOutput).factors
        = buildFactors exampleWeights exampleModelOutput exampleHistory [] := rfl
    rw [h, buildFactors_model_only _ _ _
      (by norm_num [exampleWeights, exampleModelOutput])
      (by norm_num [exampleWeights, exampleHistory, historyContribution])]
    have h5 : exampleModelOutput.raw_probability = (0.5 : ℚ) := rfl
    rw [h5, ratToDec_half]
    rfl

/-- C3: the risk level of every combined decision is the pure function
`riskLevelOf` of its score, with the fixed half-open bands and boundary
scores 0.25, 0.6, 0.85 falling into the higher band; the placeholder
handler's output also satisfies the same score-to-level mapping, so no
code path sets the level independently of the score. -/
theorem c3_risk_level_pure_function_of_score :
    (∀ w r h ms m, (compute w r h ms m).risk_level
      = riskLevelOf (compute w r h ms m).score) ∧
    riskLevelOf 0.25 = RiskLevel.MEDIUM ∧
    riskLevelOf 0.6 = RiskLevel.HIGH ∧
    riskLevelOf 0.85 = RiskLevel.CRITICAL ∧
    riskLevelOf 0 = RiskLevel.LOW ∧
    riskLevelOf 1 = RiskLevel.CRITICAL ∧
    (∀ r, (assess_risk r).risk_level = riskLevelToString (riskLevelOf (assess_risk r).score)) := by
  refine ⟨fun w r h ms m => rfl,
    riskLevelOf_eq_MEDIUM _ (by norm_num) (by norm_num),
    riskLevelOf_eq_HIGH _ (by norm_num) (by norm_num) (by norm_num),
    riskLevelOf_eq_CRITICAL _ (by norm_num) (by norm_num) (by norm_num),
    riskLevelOf_eq_LOW _ (by norm_num),
    riskLevelOf_eq_CRITICAL _ (by norm_num) (by norm_num) (by norm_num),
    fun r => ?_⟩
  have h : riskLevelOf (assess_risk r).score = RiskLevel.MEDIUM :=
    riskLevelOf_eq_MEDIUM _ (by norm_num [assess_risk]) (by norm_num [assess_risk])
  rw [h]
  rfl

/-- C4 counterexample: for the one-element batch `[sampleRequest]` the
response of `batch_assess_risk` contains no `results` field at all, so it
does not contain one BatchOutcome per input request as the claim states. -/
theorem c4_counterexample :
    ¬ ∃ v, lookupField (batch_assess_risk [sampleRequest]) resultsKey = some v := by
  rintro ⟨v, hv⟩
  exact Option.noConfusion hv

/-- C4 (amended): for every input array of requests the batch endpoint
returns exactly the JSON object with `processed` equal to the number of
input requests and `status` equal to `"pending"`; it carries no `results`
array of per-item outcomes (batch processing is an unimplemented TODO). -/
theorem c4_batch_stub_shape (reqs : List RiskAssessmentRequest) :
    batch_assess_risk reqs
      = [(processedKey, JValue.num reqs.length), (statusKey, JValue.str pendingStr)] ∧
    lookupField (batch_assess_risk reqs) resultsKey = none :=
  ⟨rfl, rfl⟩

/-- C5 counterexample: for the two-element batch in which exactly one
request has the empty `entity_id`, the response of `batch_assess_risk`
contains no per-item outcomes at all — in particular not exactly one
ValidationError outcome among them as the claim states. -/
theorem c5_counterexample :
    ¬ ∃ v, lookupField (batch_assess_risk [sampleRequest, emptyIdRequest]) resultsKey = some v := by
  rintro ⟨v, hv⟩
  exact Option.noConfusion hv

/-- C5 (amended): the batch endpoint never inspects the individual
requests — two batches of the same length get the identical stub response,
so a batch containing one request with empty `entity_id` is processed
exactly like an all-valid batch (nothing is aborted and no per-item
outcome, successful or failed, is produced). -/
theorem c5_batch_items_not_inspected (reqs reqs' : List RiskAssessmentRequest)
    (h : reqs.length = reqs'.length) :
    batch_assess_risk reqs = batch_assess_risk reqs' ∧
    lookupField (batch_assess_risk reqs) resultsKey = none := by
  constructor
  · unfold batch_assess_risk
    rw [h]
  · rfl

/-- C5 witness: the invariance theorem applied to the concrete pair of
same-length batches, one containing the empty-`entity_id` request. -/
theorem c5_witness :
    batch_assess_risk [emptyIdRequest, sampleRequest]
      = batch_assess_risk [sampleRequest, sampleRequest] ∧
    lookupField (batch_assess_risk [emptyIdRequest, sampleRequest]) resultsKey = none :=
  c5_batch_items_not_inspected _ _ rfl

/-- C6: a request body missing `entity_id` or `entity_type` is answered
with status 422 and no `RiskScore` is produced; a body carrying both
required fields reaches the `assess_risk` handler, with `parameters`
defaulted to the empty dict and `context` passed through. -/
theorem c6_required_fields_enforced (b : RawAssessBody) :
    ((b.entity_id = none ∨ b.entity_type = none) → handle_assess b = Except.error 422) ∧
    (∀ i t, b.entity_id = some i → b.entity_type = some t →
      handle_assess b = Except.ok (assess_risk
        { entity_id := i, entity_type := t
          parameters := b.parameters.getD [], context := b.context })) := by
  obtain ⟨eid, ety, ps, cx⟩ := b
  constructor
  · intro h
    cases eid with
    | none => rfl
    | some a =>
      cases ety with
      | none => rfl
      | some c =>
        rcases h with h | h
        · exact Option.noConfusion h
        · exact Option.noConfusion h
  · intro i t hi ht
    cases eid with
    | none => exact Option.noConfusion hi
    | some a =>
      cases ety with
      | none => exact Option.noConfusion ht
      | some c =>
        obtain rfl := Option.some.inj hi
        obtain rfl := Option.some.inj ht
        rfl

/-- C6 witness: the validation theorem applied to a concrete body missing
`entity_id` (answered 422) and to a concrete complete body (handler
invoked). -/
theorem c6_witness :
    handle_assess { entity_type := some acctType } = Except.error 422 ∧
    handle_assess { entity_id := some acctId, entity_type := some acctType }
      = Except.ok (assess_risk { entity_id := acctId, entity_type := acctType }) :=
  ⟨(c6_required_fields_enforced { entity_type := some acctType }).1 (Or.inl rfl),
   (c6_required_fields_enforced
     { entity_id := some acctId, entity_type := some acctType }).2 acctId acctType rfl rfl⟩

/-- C7 counterexample: with the history-store probe failing (and the other
two passing), `readiness_check` still reports ready, contradicting the
claim that any failing probe makes `/ready` report not-ready. -/
theorem c7_counterexample :
    (DependencyProbes.mk false true true).history = false ∧
    (readiness_check (DependencyProbes.mk false true true)).ready = true :=
  ⟨rfl, rfl⟩

/-- C7 (amended): `GET /ready` reports ready unconditionally — the
response is the same for every combination of dependency-probe outcomes,
because the skeleton's connectivity checks are an unimplemented TODO. -/
theorem c7_ready_reported_unconditionally (p : DependencyProbes) :
    readiness_check p = { ready := true, service := serviceName } :=
  rfl

/-- C8: every `RiskScore` the service produces has its score in the closed
interval [0,1] and its risk level among LOW, MEDIUM, HIGH, CRITICAL; the
spec-modelled combiner's clamped score obeys the same bounds. -/
theorem c8_score_bounds_and_levels (r : RiskAssessmentRequest) (w : Weights)
    (req : RiskAssessmentRequest) (h : HistorySignal) (ms : List SimilarityMatch)
    (m : ModelOutput) :
    0 ≤ (assess_risk r).score ∧ (assess_risk r).score ≤ 1 ∧
    (assess_risk r).risk_level ∈ riskLevelNames ∧
    0 ≤ (compute w req h ms m).score ∧ (compute w req h ms m).score ≤ 1 := by
  refine ⟨by norm_num [assess_risk], by norm_num [assess_risk], ?_, ?_, ?_⟩
  · show mediumStr ∈ riskLevelNames
    decide
  · exact clamp01_nonneg _
  · exact clamp01_le_one _

/-- C9: the `RiskScore` returned by the assess endpoint echoes the
request's `entity_id` unchanged. -/
theorem c9_entity_id_echoed (r : RiskAssessmentRequest) :
    (assess_risk r).entity_id = r.entity_id :=
  rfl

/-- C10: apart from the echoed `entity_id`, the assess handler returns the
same constant result for every request — level MEDIUM, score 0.5, factors
["placeholder"], the fixed timestamp string and model version 0.1.0 —
independent of `entity_type`, `parameters`, `context` and any dependency
state (the handler consults nothing else). -/
theorem c10_constant_placeholder_response (r : RiskAssessmentRequest) :
    assess_risk r =
      { entity_id := r.entity_id
        risk_level := "MEDIUM"
        score := 0.5
        factors := [placeholderStr]
        timestamp := "2025-01-15T00:00:00Z"
        model_version := "0.1.0" } :=
  rfl
